import Mathlib

/-!
Verification of the RustMath MCP server's transport, dispatch and batch layers.

The development shallowly embeds the Rust sources:
  - `src/error.rs`            → `McpError` and its constructors
  - `src/protocol/mod.rs`     → `JsonRpcRequest`, `JsonRpcResponse`, `validateReq`,
                                `handleMethod` (from `handle_method_with_config`),
                                `sendResponse` (from `send_response`)
  - `src/protocol/parser.rs`  → `parseMessage` (from `parse_message`)
  - `src/main.rs`             → `mainStep` (one iteration of the read/dispatch/write loop)
  - `src/tools/registry.rs`   → `Registry` (the `ToolRegistry` trait) and
                                `defaultExecuteTool` (table-parameterised lookup)
  - `src/tools/batch.rs`      → `batchExecute`
  - `src/utils/args.rs`       → `getNumber`, `getNumberOpt`, `getNumberArray`
  - `src/utils/validation.rs` → `validateArraySize`
  - `src/config.rs`           → `Config` (environment overrides are not modelled;
                                the compiled-in defaults are used)

Modelling conventions:
  - Byte streams are `List Nat` (each element one byte).  The `BufRead` source is
    modelled as fully buffered: `fill_buf` yields all remaining bytes at once and
    an empty list is end-of-stream.
  - JSON numbers are carried by `F64`, an exact-rational model of `f64` extended
    with the non-finite values.  Rounding of decimal literals to binary floats is
    not modelled; no claim below depends on it.  Unlike `serde_json`'s `Number`,
    `F64` can hold NaN/infinities, which makes the finiteness guards of
    `src/utils/args.rs` non-vacuous in the model.
  - `serde_json` parsing is modelled by a recursive-descent parser over decoded
    code points with serde's error taxonomy (`eof` / `data` / `syn`) and its
    recursion-depth limit of 128.  Error display strings are approximated where
    serde interpolates dynamic detail; no claim depends on those details.
  - JSON object member order is the insertion order of the embedding; `serde_json`
    with default features sorts keys, which no claim depends on.
  - Rust operations that can panic (here: byte-indexed `str` slicing in
    `parser.rs:172`) are modelled with an `Option`, `none` meaning a panic.
-/

/-! ### The f64 carrier: exact rationals plus the non-finite values -/

/-- Model of an `f64` value: an exact rational for the finite values, plus NaN and
the two infinities.  `is_finite` in the source is `F64.isFinite` here. -/
inductive F64 where
  | finite (q : ℚ)
  | nan
  | inf
  | negInf

/-- Rust `f64::is_finite` (src/utils/args.rs:32, validation.rs:31). -/
def F64.isFinite : F64 → Bool
  | .finite _ => true
  | _ => false

/-! ### JSON values (`serde_json::Value`) -/

/-- Model of `serde_json::Value`.  Objects are association lists in insertion
order. -/
inductive Json where
  | null
  | bool (b : Bool)
  | num (x : F64)
  | str (s : String)
  | arr (elems : List Json)
  | obj (fields : List (String × Json))

/-- Field lookup in a JSON object, first occurrence wins. -/
def jsonLookup (key : String) : List (String × Json) → Option Json
  | [] => none
  | (k, v) :: rest => if k = key then some v else jsonLookup key rest

/-- Rust `Value::index` by string key (`arguments[key]`): `Null` for a missing
key or a non-object receiver. -/
def Json.index (v : Json) (key : String) : Json :=
  match v with
  | .obj fields =>
    match jsonLookup key fields with
    | some x => x
    | none => .null
  | _ => .null

/-- Model of `Value::as_f64` (src/utils/args.rs:28): any JSON number converts. -/
def Json.asF64 : Json → Option F64
  | .num x => some x
  | _ => none

/-- Model of `Value::as_array` (src/utils/args.rs:88). -/
def Json.asArray : Json → Option (List Json)
  | .arr xs => some xs
  | _ => none

/-- Model of `Value::as_str`. -/
def Json.asStr : Json → Option String
  | .str s => some s
  | _ => none

/-- Model of `Value::as_bool` (src/utils/args.rs:119). -/
def Json.asBool : Json → Option Bool
  | .bool b => some b
  | _ => none

/-! ### Errors (`src/error.rs`) -/

/-- The server's error type (`McpError`, src/error.rs:19-27). -/
structure McpError where
  code : Int
  message : String
  data : Option Json

/-- `McpError::new` (src/error.rs:31). -/
def McpError.new (code : Int) (message : String) : McpError := ⟨code, message, none⟩

/-- `McpError::parse_error`, code -32700 (src/error.rs:49). -/
def McpError.parseErr (m : String) : McpError := McpError.new (-32700) m

/-- `McpError::invalid_request`, code -32600 (src/error.rs:54). -/
def McpError.invalidRequest (m : String) : McpError := McpError.new (-32600) m

/-- `McpError::invalid_params`, code -32602 (src/error.rs:64). -/
def McpError.invalidParams (m : String) : McpError := McpError.new (-32602) m

/-- `McpError::internal_error`, code -32603 (src/error.rs:69). -/
def McpError.internalError (m : String) : McpError := McpError.new (-32603) m

/-- `McpError::tool_error`, code -32000 (src/error.rs:74). -/
def McpError.toolError (m : String) : McpError := McpError.new (-32000) m

/-- `McpError::validation_error`, code -32001 (src/error.rs:79). -/
def McpError.validationError (m : String) : McpError := McpError.new (-32001) m

/-- `McpError::resource_limit`, code -32002 (src/error.rs:84). -/
def McpError.resourceLimit (m : String) : McpError := McpError.new (-32002) m

/-! ### Bytes, code points and UTF-8 -/

/-- Bytes of an ASCII string literal (used only on ASCII literals). -/
def asciiBytes (s : String) : List Nat := s.data.map Char.toNat

/-- Code points of a string. -/
def cpsOf (s : String) : List Nat := s.data.map Char.toNat

/-- String from a list of (valid) code points. -/
def strOfCps (l : List Nat) : String := ⟨l.map Char.ofNat⟩

/-- Whether a byte is a UTF-8 continuation byte. -/
def utf8Cont (b : Nat) : Bool := 128 ≤ b && b ≤ 191

/-- Decode a UTF-8 byte list into code points, rejecting truncated, overlong and
surrogate encodings as Rust's `core::str` validation does.  The fuel argument
makes the recursion structural; `utf8Decode` supplies the list length, which is
always sufficient since every step consumes at least one byte. -/
def utf8DecodeGo : Nat → List Nat → Option (List Nat)
  | _, [] => some []
  | 0, _ :: _ => none
  | f + 1, b :: rest =>
    if b < 128 then (utf8DecodeGo f rest).map (b :: ·)
    else if b < 194 then none
    else if b ≤ 223 then
      match rest with
      | c1 :: r =>
        if utf8Cont c1 then (utf8DecodeGo f r).map (((b - 192) * 64 + (c1 - 128)) :: ·) else none
      | [] => none
    else if b ≤ 239 then
      match rest with
      | c1 :: c2 :: r =>
        let okC1 :=
          if b = 224 then 160 ≤ c1 && c1 ≤ 191
          else if b = 237 then 128 ≤ c1 && c1 ≤ 159
          else utf8Cont c1
        if okC1 && utf8Cont c2 then
          (utf8DecodeGo f r).map ((((b - 224) * 64 + (c1 - 128)) * 64 + (c2 - 128)) :: ·)
        else none
      | _ => none
    else if b ≤ 244 then
      match rest with
      | c1 :: c2 :: c3 :: r =>
        let okC1 :=
          if b = 240 then 144 ≤ c1 && c1 ≤ 191
          else if b = 244 then 128 ≤ c1 && c1 ≤ 143
          else utf8Cont c1
        if okC1 && utf8Cont c2 && utf8Cont c3 then
          (utf8DecodeGo f r).map
            ((((((b - 240) * 64 + (c1 - 128)) * 64 + (c2 - 128)) * 64 + (c3 - 128))) :: ·)
        else none
      | _ => none
    else none

/-- UTF-8 validation and decoding of a byte list (Rust `String::from_utf8` /
`str::from_utf8`). -/
def utf8Decode (l : List Nat) : Option (List Nat) := utf8DecodeGo l.length l

/-- The UTF-8 byte length of one code point. -/
def utf8Size (cp : Nat) : Nat :=
  if cp < 128 then 1 else if cp < 2048 then 2 else if cp < 65536 then 3 else 4

/-- UTF-8 encode one code point. -/
def utf8EncodeCp (cp : Nat) : List Nat :=
  if cp < 128 then [cp]
  else if cp < 2048 then [192 + cp / 64, 128 + cp % 64]
  else if cp < 65536 then [224 + cp / 4096, 128 + cp / 64 % 64, 128 + cp % 64]
  else [240 + cp / 262144, 128 + cp / 4096 % 64, 128 + cp / 64 % 64, 128 + cp % 64]

/-- UTF-8 bytes of a string (what Rust's `write!` emits and `String::len` counts). -/
def utf8Encode (s : String) : List Nat := s.data.flatMap (fun c => utf8EncodeCp c.toNat)

/-- Rust `char::is_whitespace` on a code point (the Unicode `White_Space` set). -/
def rustWs (cp : Nat) : Bool :=
  (9 ≤ cp && cp ≤ 13) || cp = 32 || cp = 133 || cp = 160 || cp = 5760 ||
  (8192 ≤ cp && cp ≤ 8202) || cp = 8232 || cp = 8233 || cp = 8239 || cp = 8287 || cp = 12288

/-- Rust `str::trim` over code points. -/
def rustTrim (l : List Nat) : List Nat :=
  ((l.dropWhile rustWs).reverse.dropWhile rustWs).reverse

/-- Helper for `splitWs`: accumulates the current token in reverse. -/
def splitWsAux : List Nat → List Nat → List (List Nat)
  | [], cur => if cur.isEmpty then [] else [cur.reverse]
  | c :: r, cur =>
    if rustWs c then
      if cur.isEmpty then splitWsAux r [] else cur.reverse :: splitWsAux r []
    else splitWsAux r (c :: cur)

/-- Rust `str::split_whitespace` over code points (parser.rs:66). -/
def splitWs (l : List Nat) : List (List Nat) := splitWsAux l []

/-- Rust `usize::from_str` on the code points of a token: optional `+` sign, at
least one decimal digit, value within `u64` range (parser.rs:69).  The error
strings are `ParseIntError`'s display values. -/
def parseUsize (l : List Nat) : Except String Nat :=
  let digits := match l with
    | 43 :: r => r
    | _ => l
  if digits.isEmpty then .error "cannot parse integer from empty string"
  else if digits.all (fun c => 48 ≤ c && c ≤ 57) then
    let v := digits.foldl (fun acc c => acc * 10 + (c - 48)) 0
    if v < 2 ^ 64 then .ok v else .error "number too large to fit in target type"
  else .error "invalid digit found in string"

/-- `BufRead::read_line` on the byte stream: everything up to and including the
first newline byte (or the rest of the stream), plus the remainder. -/
def readLineBytes : List Nat → List Nat × List Nat
  | [] => ([], [])
  | b :: r =>
    if b = 10 then ([b], r)
    else
      let (line, rest) := readLineBytes r
      (b :: line, rest)

/-- Byte-indexed prefix of a `str` held as code points: `some` of the code points
covering exactly `n` bytes when `n` falls on a character boundary, `none` (a
panic in Rust) otherwise.  Models `&s[..n]` (parser.rs:172). -/
def cpsSlicePrefix : List Nat → Nat → Option (List Nat)
  | _, 0 => some []
  | [], _ + 1 => none
  | cp :: r, n + 1 =>
    if utf8Size cp ≤ n + 1 then
      (cpsSlicePrefix r (n + 1 - utf8Size cp)).map (cp :: ·)
    else none

/-- Total UTF-8 byte length of a list of code points (Rust `str::len`). -/
def cpsByteLen (l : List Nat) : Nat := (l.map utf8Size).sum

/-! ### The JSON document parser (model of `serde_json` deserialisation)

`serde_json` classifies failures as end-of-input, semantic, or syntactic
(`Error::is_eof` / `is_data`, parser.rs:128); the same split is kept here. -/

/-- The error category of a `serde_json::Error`. -/
inductive ParseKind where
  | eof
  | data
  | syn

/-- JSON insignificant whitespace. -/
def jsonWs (c : Nat) : Bool := c = 32 || c = 9 || c = 10 || c = 13

/-- Skip insignificant whitespace. -/
def skipWs (l : List Nat) : List Nat := l.dropWhile jsonWs

/-- Value of a hexadecimal digit code point. -/
def hexVal (c : Nat) : Option Nat :=
  if 48 ≤ c && c ≤ 57 then some (c - 48)
  else if 97 ≤ c && c ≤ 102 then some (c - 87)
  else if 65 ≤ c && c ≤ 70 then some (c - 55)
  else none

/-- Value of a four-hex-digit escape. -/
def hex4 (a b c d : Nat) : Option Nat := do
  let va ← hexVal a
  let vb ← hexVal b
  let vc ← hexVal c
  let vd ← hexVal d
  return ((va * 16 + vb) * 16 + vc) * 16 + vd

/-- Single-character escapes inside a JSON string literal. -/
def escCp (e : Nat) : Option Nat :=
  if e = 34 then some 34
  else if e = 92 then some 92
  else if e = 47 then some 47
  else if e = 98 then some 8
  else if e = 102 then some 12
  else if e = 110 then some 10
  else if e = 114 then some 13
  else if e = 116 then some 9
  else none

/-- Scan the body of a JSON string literal after the opening quote, producing the
decoded code points and the rest of the input. -/
def scanStr : List Nat → Except (ParseKind × String) (List Nat × List Nat)
  | [] => .error (.eof, "EOF while parsing a string")
  | c :: r =>
    if c = 34 then .ok ([], r)
    else if c = 92 then
      match r with
      | [] => .error (.eof, "EOF while parsing a string")
      | e :: r2 =>
        if e = 117 then
          match r2 with
          | a :: b :: cc :: d :: r3 =>
            match hex4 a b cc d with
            | none => .error (.syn, "invalid escape")
            | some cp =>
              if cp < 55296 || 57343 < cp then
                (scanStr r3).map (fun p => (cp :: p.1, p.2))
              else if cp ≤ 56319 then
                match r3 with
                | 92 :: 117 :: a2 :: b2 :: c2 :: d2 :: r4 =>
                  match hex4 a2 b2 c2 d2 with
                  | none => .error (.syn, "invalid escape")
                  | some lo =>
                    if 56320 ≤ lo && lo ≤ 57343 then
                      (scanStr r4).map
                        (fun p => ((65536 + (cp - 55296) * 1024 + (lo - 56320)) :: p.1, p.2))
                    else .error (.syn, "unexpected surrogate pair")
                | _ => .error (.syn, "unexpected end of hex escape")
              else .error (.syn, "lone leading surrogate in hex escape")
          | _ => .error (.eof, "EOF while parsing a string")
        else
          match escCp e with
          | some cp => (scanStr r2).map (fun p => (cp :: p.1, p.2))
          | none => .error (.syn, "invalid escape")
    else if c < 32 then .error (.syn, "control character found while parsing a string")
    else (scanStr r).map (fun p => (c :: p.1, p.2))

/-- Leading run of decimal digits. -/
def takeDigits : List Nat → List Nat × List Nat
  | [] => ([], [])
  | c :: r =>
    if 48 ≤ c && c ≤ 57 then
      let (ds, rest) := takeDigits r
      (c :: ds, rest)
    else ([], c :: r)

/-- Natural number denoted by a digit run. -/
def digitsToNat (ds : List Nat) : Nat := ds.foldl (fun acc c => acc * 10 + (c - 48)) 0

/-- The exact rational `±mant × 10^e10` denoted by a decimal literal. -/
def decimalToRat (neg : Bool) (mant : Nat) (e10 : Int) : ℚ :=
  let m : Int := (if neg then -1 else 1) * (mant : Int)
  if 0 ≤ e10 then mkRat (m * ((10 ^ e10.toNat : Nat) : Int)) 1
  else mkRat m (10 ^ (-e10).toNat)

/-- Scan a JSON number (serde's grammar: no leading zeros, mandatory digits after
`.` and the exponent marker).  The value is kept as an exact rational. -/
def scanNum (l : List Nat) : Except (ParseKind × String) (F64 × List Nat) :=
  let (neg, l1) : Bool × List Nat :=
    match l with
    | 45 :: r => (true, r)
    | _ => (false, l)
  let (intDs, l2) := takeDigits l1
  match intDs with
  | [] =>
    if l1.isEmpty then .error (.eof, "EOF while parsing a value")
    else .error (.syn, "invalid number")
  | d0 :: drest =>
    if d0 = 48 && !drest.isEmpty then .error (.syn, "invalid number")
    else
      let (fracDs, l3) : List Nat × List Nat :=
        match l2 with
        | 46 :: r => takeDigits r
        | _ => ([], l2)
      let fracMissing : Bool :=
        match l2 with
        | 46 :: _ => fracDs.isEmpty
        | _ => false
      if fracMissing then
        if l3.isEmpty then .error (.eof, "EOF while parsing a value")
        else .error (.syn, "invalid number")
      else
        let hasExp : Bool :=
          match l3 with
          | 101 :: _ => true
          | 69 :: _ => true
          | _ => false
        let expTail : List Nat :=
          match l3 with
          | _ :: r => r
          | [] => []
        if hasExp then
          let (expNeg, e1) : Bool × List Nat :=
            match expTail with
            | 43 :: r => (false, r)
            | 45 :: r => (true, r)
            | _ => (false, expTail)
          let (expDs, l4) := takeDigits e1
          if expDs.isEmpty then
            if e1.isEmpty then .error (.eof, "EOF while parsing a value")
            else .error (.syn, "invalid number")
          else
            let expVal : Int := (if expNeg then -1 else 1) * (digitsToNat expDs : Int)
            .ok (.finite (decimalToRat neg (digitsToNat (intDs ++ fracDs))
              (expVal - (fracDs.length : Int))), l4)
        else
          .ok (.finite (decimalToRat neg (digitsToNat (intDs ++ fracDs))
            (-(fracDs.length : Int))), l3)

mutual

/-- Parse one JSON value.  `fuel` makes the recursion structural (the top-level
entry point supplies more than enough); `budget` is serde's recursion-depth
limit of 128, decremented at each array or object. -/
def jValue (fuel : Nat) (budget : Nat) (l : List Nat) : Except (ParseKind × String) (Json × List Nat) :=
  match fuel with
  | 0 => .error (.syn, "recursion limit exceeded")
  | f + 1 =>
    match skipWs l with
    | [] => .error (.eof, "EOF while parsing a value")
    | c :: r =>
      if c = 110 then
        match r with
        | 117 :: 108 :: 108 :: r2 => .ok (.null, r2)
        | _ => .error (.syn, "expected ident")
      else if c = 116 then
        match r with
        | 114 :: 117 :: 101 :: r2 => .ok (.bool true, r2)
        | _ => .error (.syn, "expected ident")
      else if c = 102 then
        match r with
        | 97 :: 108 :: 115 :: 101 :: r2 => .ok (.bool false, r2)
        | _ => .error (.syn, "expected ident")
      else if c = 34 then
        (scanStr r).map (fun p => (.str (strOfCps p.1), p.2))
      else if c = 123 then
        if budget = 0 then .error (.syn, "recursion limit exceeded")
        else
          match skipWs r with
          | 125 :: r2 => .ok (.obj [], r2)
          | r2 => (jMembers f (budget - 1) r2).map (fun p => (.obj p.1, p.2))
      else if c = 91 then
        if budget = 0 then .error (.syn, "recursion limit exceeded")
        else
          match skipWs r with
          | 93 :: r2 => .ok (.arr [], r2)
          | r2 => (jElems f (budget - 1) r2).map (fun p => (.arr p.1, p.2))
      else if c = 45 || (48 ≤ c && c ≤ 57) then
        (scanNum (c :: r)).map (fun p => (.num p.1, p.2))
      else .error (.syn, "expected value")

/-- Parse the (non-empty) member list of a JSON object, starting at the first
key and finishing after the closing brace. -/
def jMembers (fuel : Nat) (budget : Nat) (l : List Nat) : Except (ParseKind × String) (List (String × Json) × List Nat) :=
  match fuel with
  | 0 => .error (.syn, "recursion limit exceeded")
  | f + 1 =>
    match skipWs l with
    | [] => .error (.eof, "EOF while parsing an object")
    | c :: r =>
      if c = 34 then
        match scanStr r with
        | .error e => .error e
        | .ok (key, r1) =>
          match skipWs r1 with
          | 58 :: r2 =>
            match jValue f budget r2 with
            | .error e => .error e
            | .ok (v, r3) =>
              match skipWs r3 with
              | 44 :: r4 => (jMembers f budget r4).map (fun p => ((strOfCps key, v) :: p.1, p.2))
              | 125 :: r4 => .ok ([(strOfCps key, v)], r4)
              | [] => .error (.eof, "EOF while parsing an object")
              | _ => .error (.syn, "expected `,` or `\x7d`")
          | [] => .error (.eof, "EOF while parsing an object")
          | _ => .error (.syn, "expected `:`")
      else .error (.syn, "key must be a string")

/-- Parse the (non-empty) element list of a JSON array, finishing after the
closing bracket. -/
def jElems (fuel : Nat) (budget : Nat) (l : List Nat) : Except (ParseKind × String) (List Json × List Nat) :=
  match fuel with
  | 0 => .error (.syn, "recursion limit exceeded")
  | f + 1 =>
    match jValue f budget l with
    | .error e => .error e
    | .ok (v, r) =>
      match skipWs r with
      | 44 :: r2 => (jElems f budget r2).map (fun p => (v :: p.1, p.2))
      | 93 :: r2 => .ok ([v], r2)
      | [] => .error (.eof, "EOF while parsing a list")
      | _ => .error (.syn, "expected `,` or `]`")

end

/-- Parse a complete JSON document: one value, then only trailing whitespace. -/
def jDoc (cps : List Nat) : Except (ParseKind × String) Json :=
  match jValue (2 * cps.length + 2) 128 cps with
  | .error e => .error e
  | .ok (v, r) => if (skipWs r).isEmpty then .ok v else .error (.syn, "trailing characters")

/-! ### The JSON-RPC data contracts (`src/protocol/mod.rs`) -/

/-- `JsonRpcRequest` (protocol/mod.rs:18-23). -/
structure JsonRpcRequest where
  jsonrpc : String
  id : Option Json
  method : String
  params : Option Json

/-- `JsonRpcError` (protocol/mod.rs:58-63). -/
structure JsonRpcError where
  code : Int
  message : String
  data : Option Json

/-- `JsonRpcResponse` (protocol/mod.rs:44-54).  `result` and `error` are skipped
by serialisation when absent; `id` always serialises (as `null` when absent). -/
structure JsonRpcResponse where
  jsonrpc : String
  id : Option Json
  result : Option Json
  error : Option JsonRpcError

/-- Deserialising `JsonRpcRequest` from a JSON value (the serde derive: the two
`String` fields are required, the two `Option<Value>` fields default to absent,
unknown fields are ignored, `null` deserialises an `Option` to `None`). -/
def requestOfJson : Json → Except (ParseKind × String) JsonRpcRequest
  | .obj fields =>
    match jsonLookup "jsonrpc" fields with
    | none => .error (.data, "missing field `jsonrpc`")
    | some jv =>
      match jv.asStr with
      | none => .error (.data, "invalid type for field `jsonrpc`")
      | some ver =>
        match jsonLookup "method" fields with
        | none => .error (.data, "missing field `method`")
        | some mv =>
          match mv.asStr with
          | none => .error (.data, "invalid type for field `method`")
          | some m =>
            let idv : Option Json :=
              match jsonLookup "id" fields with
              | some .null => none
              | some v => some v
              | none => none
            let pv : Option Json :=
              match jsonLookup "params" fields with
              | some .null => none
              | some v => some v
              | none => none
            .ok ⟨ver, idv, m, pv⟩
  | _ => .error (.data, "invalid type: expected struct JsonRpcRequest")

/-- `serde_json::from_str::<JsonRpcRequest>` over code points. -/
def requestFromCps (cps : List Nat) : Except (ParseKind × String) JsonRpcRequest :=
  match jDoc cps with
  | .error e => .error e
  | .ok v => requestOfJson v

/-- `serde_json::from_slice::<JsonRpcRequest>` over bytes; invalid UTF-8 is a
syntactic failure. -/
def requestFromBytes (bytes : List Nat) : Except (ParseKind × String) JsonRpcRequest :=
  match utf8Decode bytes with
  | none => .error (.syn, "invalid unicode code point")
  | some cps => requestFromCps cps

/-- `JsonRpcRequest::validate` (protocol/mod.rs:27-36): the version literal must
be `"2.0"`. -/
def validateReq (req : JsonRpcRequest) : Option McpError :=
  if req.jsonrpc = "2.0" then none
  else some (.invalidRequest ("Invalid JSON-RPC version: expected '2.0', got '" ++ req.jsonrpc ++ "'"))

/-! ### The message reader (`src/protocol/parser.rs`) -/

/-- `MAX_CONTENT_LENGTH` (parser.rs:8). -/
def MAX_CONTENT_LENGTH : Nat := 10000000

/-- `ParseResult` (parser.rs:12-15). -/
structure ParseResult where
  request : JsonRpcRequest
  usesContentLength : Bool

/-- Outcome of one `parse_message` call: a parsed request, a classified error, or
a Rust panic. -/
inductive ParseOut where
  | ok (pr : ParseResult)
  | err (e : McpError)
  | panicked

/-- The literal header token checked by the format detector (parser.rs:55). -/
def contentLengthToken : List Nat := asciiBytes "Content-Length:"

/-- Whether a byte list starts with a given token. -/
def listStartsWith : List Nat → List Nat → Bool
  | _, [] => true
  | [], _ :: _ => false
  | a :: l, b :: p => a = b && listStartsWith l p

/-- One call to `parse_message` (parser.rs:42-175) on the modelled stream.
Returns the outcome and the bytes left unconsumed for the next loop iteration.
The bare-JSON branch consumes the whole remaining stream: the loop's first
`fill_buf` returns every buffered byte and the second returns none. -/
def parseMessage (stream : List Nat) : ParseOut × List Nat :=
  if stream.isEmpty then
    (.err (McpError.new (-32001) "EOF: clean shutdown"), [])
  else
    let startsWithJson := stream.head? = some 123
    let startsWithHeader := listStartsWith stream contentLengthToken
    if startsWithHeader then
      let (lineBytes, rest1) := readLineBytes stream
      match utf8Decode lineBytes with
      | none =>
        (.err (.internalError "Failed to read header: stream did not contain valid UTF-8"), rest1)
      | some lineCps =>
        let trimmed := rustTrim lineCps
        match (splitWs trimmed).get? 1 with
        | none => (.err (.invalidRequest "Invalid Content-Length header format"), rest1)
        | some tok =>
          match parseUsize tok with
          | .error m => (.err (.invalidRequest ("Invalid Content-Length value: " ++ m)), rest1)
          | .ok length =>
            if MAX_CONTENT_LENGTH < length then
              (.err (.resourceLimit ("Content-Length " ++ Nat.repr length ++
                " exceeds maximum allowed size of " ++ Nat.repr MAX_CONTENT_LENGTH ++ " bytes")), rest1)
            else
              let (blankBytes, rest2) := readLineBytes rest1
              match utf8Decode blankBytes with
              | none =>
                (.err (.internalError "Failed to read blank line: stream did not contain valid UTF-8"), rest2)
              | some _ =>
                if rest2.length < length then
                  (.err (.internalError "Failed to read JSON message: failed to fill whole buffer"), [])
                else
                  let body := rest2.take length
                  let rest3 := rest2.drop length
                  match utf8Decode body with
                  | none => (.err (.parseErr "Invalid UTF-8 in message: invalid utf-8 sequence"), rest3)
                  | some bodyCps =>
                    match requestFromCps bodyCps with
                    | .error (_, m) => (.err (.parseErr ("JSON parse error: " ++ m)), rest3)
                    | .ok req =>
                      match validateReq req with
                      | some e => (.err e, rest3)
                      | none => (.ok ⟨req, true⟩, rest3)
    else if startsWithJson then
      let jsonBuffer := stream
      match requestFromBytes jsonBuffer with
      | .ok req =>
        match validateReq req with
        | some e => (.err e, [])
        | none => (.ok ⟨req, false⟩, [])
      | .error (k, m) =>
        match k with
        | .eof | .data =>
          match utf8Decode jsonBuffer with
          | none => (.err (.parseErr "Invalid UTF-8 in message: invalid utf-8 sequence"), [])
          | some cps =>
            match requestFromCps (rustTrim cps) with
            | .error (_, m2) => (.err (.parseErr ("JSON parse error: " ++ m2)), [])
            | .ok req =>
              match validateReq req with
              | some e => (.err e, [])
              | none => (.ok ⟨req, false⟩, [])
        | .syn =>
          match utf8Decode jsonBuffer with
          | none => (.err (.parseErr ("JSON parse error: " ++ m)), [])
          | some cps =>
            match requestFromCps (rustTrim cps) with
            | .ok req =>
              match validateReq req with
              | some e => (.err e, [])
              | none => (.ok ⟨req, false⟩, [])
            | .error _ => (.err (.parseErr ("JSON parse error: " ++ m)), [])
    else
      let (lineBytes, rest1) := readLineBytes stream
      match utf8Decode lineBytes with
      | none =>
        (.err (.internalError "Failed to read input: stream did not contain valid UTF-8"), rest1)
      | some lineCps =>
        let trimmed := rustTrim lineCps
        if 50 < cpsByteLen trimmed then
          match cpsSlicePrefix trimmed 50 with
          | none => (.panicked, rest1)
          | some pfx =>
            (.err (.invalidRequest ("Unknown message format, expected Content-Length header or JSON, got: " ++
              strOfCps pfx ++ "...")), rest1)
        else
          (.err (.invalidRequest ("Unknown message format, expected Content-Length header or JSON, got: " ++
            strOfCps trimmed)), rest1)

/-! ### Serialisation (`serde_json::to_string`) -/

/-- Decimal rendering of an integer. -/
def intRender (i : Int) : String :=
  if i < 0 then "-" ++ Nat.repr i.natAbs else Nat.repr i.natAbs

/-- Fractional decimal digits of `num/den` by long division (enough digits for
any value a claim touches; exact float shortest-printing is not modelled). -/
def fracDigitsAux : Nat → Nat → Nat → String
  | 0, _, _ => ""
  | _ + 1, 0, _ => ""
  | fuel + 1, num, den =>
    let d := num * 10 / den
    Nat.repr d ++ fracDigitsAux fuel (num * 10 % den) den

/-- Decimal rendering of an `F64`.  The non-finite values cannot be produced by
parsing and no claim serialises them. -/
def numRender : F64 → String
  | .finite q =>
    if q.den = 1 then intRender q.num
    else
      (if q.num < 0 then "-" else "") ++ Nat.repr (q.num.natAbs / q.den) ++ "." ++
        fracDigitsAux 17 (q.num.natAbs % q.den) q.den
  | _ => "null"

/-- Two lowercase hex digits. -/
def hex2 (n : Nat) : String :=
  let dig := fun d => if d < 10 then Nat.repr d else String.singleton (Char.ofNat (87 + d))
  dig (n / 16 % 16) ++ dig (n % 16)

/-- JSON string escaping of one character. -/
def escChar (c : Char) : String :=
  if c = '"' then "\\\""
  else if c = '\\' then "\\\\"
  else if c = Char.ofNat 8 then "\\b"
  else if c = Char.ofNat 12 then "\\f"
  else if c = '\n' then "\\n"
  else if c = '\r' then "\\r"
  else if c = '\t' then "\\t"
  else if c.toNat < 32 then "\\u00" ++ hex2 c.toNat
  else String.singleton c

/-- JSON string escaping. -/
def escapeStr (s : String) : String := s.data.foldl (fun acc c => acc ++ escChar c) ""

mutual

/-- `serde_json::to_string` on a value (member order: insertion order). -/
def jsonSerialize : Json → String
  | .null => "null"
  | .bool b => if b then "true" else "false"
  | .num x => numRender x
  | .str s => "\"" ++ escapeStr s ++ "\""
  | .arr xs => "[" ++ serElems xs ++ "]"
  | .obj ms => "\x7b" ++ serMembers ms ++ "\x7d"

/-- Comma-separated serialisation of array elements. -/
def serElems : List Json → String
  | [] => ""
  | [x] => jsonSerialize x
  | x :: y :: rest => jsonSerialize x ++ "," ++ serElems (y :: rest)

/-- Comma-separated serialisation of object members. -/
def serMembers : List (String × Json) → String
  | [] => ""
  | [(k, v)] => "\"" ++ escapeStr k ++ "\":" ++ jsonSerialize v
  | (k, v) :: m :: rest =>
    "\"" ++ escapeStr k ++ "\":" ++ jsonSerialize v ++ "," ++ serMembers (m :: rest)

end

/-- Serialisation of `JsonRpcResponse` (derived `Serialize`: declaration order;
`result`/`error` skipped when `None`; `id` always present, `null` when `None`). -/
def serializeResponse (r : JsonRpcResponse) : String :=
  "\x7b\"jsonrpc\":\"" ++ escapeStr r.jsonrpc ++ "\",\"id\":" ++
    (match r.id with
     | none => "null"
     | some v => jsonSerialize v) ++
    (match r.result with
     | none => ""
     | some v => ",\"result\":" ++ jsonSerialize v) ++
    (match r.error with
     | none => ""
     | some e =>
       ",\"error\":\x7b\"code\":" ++ intRender e.code ++ ",\"message\":\"" ++
         escapeStr e.message ++ "\"" ++
         (match e.data with
          | none => ""
          | some d => ",\"data\":" ++ jsonSerialize d) ++ "\x7d") ++
    "\x7d"

/-! ### The response writer (`send_response`, protocol/mod.rs:116-140)

`main.rs:61` calls `send_response(response, parse_result.uses_content_length)`,
but the only definition of `send_response` in the crate takes the response
alone and unconditionally emits Content-Length framing; the embedding is that
definition, so the framing flag threaded by `main` has nothing to consume. -/

/-- `send_response` (protocol/mod.rs:116-140): serialise, then write
`Content-Length: <bytes>\r\n\r\n<json>` to stdout.  Returns the bytes written. -/
def sendResponse (response : JsonRpcResponse) : List Nat :=
  let json := serializeResponse response
  let contentLength := (utf8Encode json).length
  utf8Encode ("Content-Length: " ++ Nat.repr contentLength ++ "\r\n\r\n" ++ json)

/-! ### Configuration (`src/config.rs`) -/

/-- `Config` (config.rs:17-30) with its compiled-in defaults (config.rs:33-57);
environment overrides are outside the model. -/
structure Config where
  serverName : String
  serverVersion : String
  maxArraySize : Nat
  maxDecimalPlaces : Int
  enableRateLimit : Bool
  maxRequestsPerSecond : Nat

/-- `Config::new` (config.rs:62). -/
def Config.new : Config := ⟨"rust-math-mcp", "0.1.0", 10000, 15, true, 1000⟩

/-! ### The dispatcher (`handle_method_with_config`, protocol/mod.rs:192-298) -/

/-- The `ToolRegistry` trait (tools/traits.rs:20-39), over which the dispatcher
is generic. -/
structure Registry where
  getAllTools : Json
  executeTool : String → Json → Except McpError Json

/-- `InitializeParams` (protocol/mod.rs:84-88).  The serde derive uses the field
names verbatim, so the wire keys are snake_case. -/
structure InitializeParams where
  protocolVersion : String
  capabilities : Json
  clientInfo : Json

/-- Deserialising `InitializeParams`: all three fields are required. -/
def initializeParamsOfJson : Json → Except String InitializeParams
  | .obj fields =>
    match jsonLookup "protocol_version" fields with
    | none => .error "missing field `protocol_version`"
    | some pv =>
      match pv.asStr with
      | none => .error "invalid type for field `protocol_version`"
      | some ver =>
        match jsonLookup "capabilities" fields with
        | none => .error "missing field `capabilities`"
        | some caps =>
          match jsonLookup "client_info" fields with
          | none => .error "missing field `client_info`"
          | some ci => .ok ⟨ver, caps, ci⟩
  | _ => .error "invalid type: expected struct InitializeParams"

/-- `ToolCallParams` (protocol/mod.rs:100-103). -/
structure ToolCallParams where
  name : String
  arguments : Json

/-- Deserialising `ToolCallParams`: both fields are required. -/
def toolCallParamsOfJson : Json → Except String ToolCallParams
  | .obj fields =>
    match jsonLookup "name" fields with
    | none => .error "missing field `name`"
    | some nv =>
      match nv.asStr with
      | none => .error "invalid type for field `name`"
      | some nm =>
        match jsonLookup "arguments" fields with
        | none => .error "missing field `arguments`"
        | some args => .ok ⟨nm, args⟩
  | _ => .error "invalid type: expected struct ToolCallParams"

/-- `handle_initialize` (protocol/mod.rs:151-175): echo the protocol version,
advertise the tools capability and the configured server identity.  The caller
fills in `id`. -/
def handleInit (p : InitializeParams) (config : Config) : JsonRpcResponse :=
  ⟨"2.0", none,
    some (.obj
      [("protocol_version", .str p.protocolVersion),
       ("capabilities", .obj [("tools", .obj [])]),
       ("server_info", .obj
         [("name", .str config.serverName), ("version", .str config.serverVersion)])]),
    none⟩

/-- `handle_method_with_config` (protocol/mod.rs:192-298).  Failures of
`serde_json::from_value` on present-but-bad `params` convert through
`From<serde_json::Error>` (error.rs:111-115) into a -32700 parse error. -/
def handleMethod (method : String) (params : Option Json) (id : Option Json)
    (registry : Registry) (config : Config) : Except McpError JsonRpcResponse :=
  if method = "initialize" then
    match params with
    | none => .error (.invalidParams "Missing params")
    | some p =>
      match initializeParamsOfJson p with
      | .error m => .error (.parseErr ("JSON parse error: " ++ m))
      | .ok ip => .ok { handleInit ip config with id := id }
  else if method = "tools/list" then
    .ok ⟨"2.0", id, some (.obj [("tools", registry.getAllTools)]), none⟩
  else if method = "tools/call" then
    match params with
    | none => .error (.invalidParams "Missing params")
    | some p =>
      match toolCallParamsOfJson p with
      | .error m => .error (.parseErr ("JSON parse error: " ++ m))
      | .ok cp =>
        match registry.executeTool cp.name cp.arguments with
        | .ok result =>
          .ok ⟨"2.0", id,
            some (.obj
              [("content", .arr
                [.obj [("type", .str "text"), ("text", .str (jsonSerialize result))]])]),
            none⟩
        | .error e =>
          .ok ⟨"2.0", id,
            some (.obj
              [("content", .arr
                [.obj [("type", .str "text"), ("text", .str ("Error: " ++ e.message))]]),
               ("isError", .bool true)]),
            none⟩
  else
    .ok ⟨"2.0", id,
      some (.obj
        [("content", .arr
          [.obj [("type", .str "text"), ("text", .str ("Method not found: " ++ method))]]),
         ("isError", .bool true)]),
      none⟩

/-! ### One iteration of the processing loop (`main`, src/main.rs:42-103) -/

/-- Whether a character list starts with a given pattern. -/
def charsStartWith : List Char → List Char → Bool
  | _, [] => true
  | [], _ :: _ => false
  | a :: l, b :: p => a = b && charsStartWith l p

/-- Whether a pattern occurs inside a character list. -/
def charsContain (l pat : List Char) : Bool :=
  match l with
  | [] => charsStartWith [] pat
  | _ :: rest => charsStartWith l pat || charsContain rest pat

/-- Rust `str::contains` on a literal pattern. -/
def strContains (s pat : String) : Bool := charsContain s.data pat.data

/-- Result of one loop iteration: continue with the remaining stream after
writing `output`, shut down cleanly, exit by propagating an error (the `?` on
main.rs:58 and main.rs:61), or die of a panic. -/
inductive StepResult where
  | next (rest : List Nat) (output : List Nat)
  | shutdown
  | exitErr (e : McpError)
  | panicked

/-- One iteration of the `main` loop (main.rs:42-103): parse, detect the EOF
sentinel (code -32001 and a message containing `"EOF"`, main.rs:66-71),
dispatch, reply.  A dispatcher error propagates out of `main` through `?`
(main.rs:58), ending the loop.  A non-EOF parse failure sends a best-effort
bare-result error response with a null id (main.rs:79-92) and continues. -/
def mainStep (stream : List Nat) (registry : Registry) (config : Config) : StepResult :=
  match parseMessage stream with
  | (.panicked, _) => .panicked
  | (.ok pr, rest) =>
    match handleMethod pr.request.method pr.request.params pr.request.id registry config with
    | .ok response => .next rest (sendResponse response)
    | .error e => .exitErr e
  | (.err e, rest) =>
    if e.code = -32001 && strContains e.message "EOF" then .shutdown
    else
      .next rest (sendResponse
        ⟨"2.0", none,
          some (.obj
            [("content", .arr
              [.obj [("type", .str "text"), ("text", .str ("Parse error: " ++ e.message))]]),
             ("isError", .bool true)]),
          none⟩)

/-! ### The tool registry (`src/tools/registry.rs`) -/

/-- `ToolExecutor` (registry.rs:14). -/
def ToolExecutor := String → Json → Except McpError Json

/-- Name lookup in the registry table (the `HashMap::get` of registry.rs:96,
with the table as the association list built at startup). -/
def tableLookup (table : List (String × ToolExecutor)) (name : String) : Option ToolExecutor :=
  match table with
  | [] => none
  | (k, ex) :: rest => if k = name then some ex else tableLookup rest name

/-- `DefaultToolRegistry::execute_tool` (registry.rs:95-100): a missing entry is
a tool error `Unknown tool: <name>`, a hit runs the executor on the name and
arguments. -/
def defaultExecuteTool (table : List (String × ToolExecutor)) (name : String)
    (arguments : Json) : Except McpError Json :=
  match tableLookup table name with
  | none => .error (.toolError ("Unknown tool: " ++ name))
  | some ex => ex name arguments

/-! ### The batch meta-operation (`src/tools/batch.rs`) -/

/-- `BatchOperation` (batch.rs:11-18). -/
structure BatchOp where
  id : String
  tool : String
  arguments : Json

/-- `BatchOperationResult` (batch.rs:22-33). -/
structure BatchOpResult where
  id : String
  success : Bool
  result : Option Json
  error : Option String

/-- Deserialising one `BatchOperation`: all three fields required. -/
def batchOpOfJson : Json → Except String BatchOp
  | .obj fields =>
    match jsonLookup "id" fields with
    | none => .error "missing field `id`"
    | some iv =>
      match iv.asStr with
      | none => .error "invalid type for field `id`"
      | some i =>
        match jsonLookup "tool" fields with
        | none => .error "missing field `tool`"
        | some tv =>
          match tv.asStr with
          | none => .error "invalid type for field `tool`"
          | some t =>
            match jsonLookup "arguments" fields with
            | none => .error "missing field `arguments`"
            | some a => .ok ⟨i, t, a⟩
  | _ => .error "invalid type: expected struct BatchOperation"

/-- Deserialising a list of operations elementwise. -/
def batchOpsOfJson : List Json → Except String (List BatchOp)
  | [] => .ok []
  | v :: rest =>
    match batchOpOfJson v with
    | .error m => .error m
    | .ok op =>
      match batchOpsOfJson rest with
      | .error m => .error m
      | .ok ops => .ok (op :: ops)

/-- Deserialising `BatchArgs` (batch.rs:37-39): a required `operations` array. -/
def batchArgsOfJson : Json → Except String (List BatchOp)
  | .obj fields =>
    match jsonLookup "operations" fields with
    | none => .error "missing field `operations`"
    | some ov =>
      match ov.asArray with
      | none => .error "invalid type for field `operations`"
      | some items => batchOpsOfJson items
  | _ => .error "invalid type: expected struct BatchArgs"

/-- First operation id already seen (the `HashSet::insert` scan of
batch.rs:96-104). -/
def firstDupId (seen : List String) : List BatchOp → Option String
  | [] => none
  | op :: rest =>
    if seen.contains op.id then some op.id else firstDupId (op.id :: seen) rest

/-- Executing one sub-operation (batch.rs:111-124): tag the executor's outcome
with the operation's id. -/
def runOp (exec : String → Json → Except McpError Json) (op : BatchOp) : BatchOpResult :=
  match exec op.tool op.arguments with
  | .ok value => ⟨op.id, true, some value, none⟩
  | .error e => ⟨op.id, false, none, some e.message⟩

/-- Serialising one `BatchOperationResult` (the derive with two
`skip_serializing_if` fields, batch.rs:22-33). -/
def batchResultToJson (r : BatchOpResult) : Json :=
  .obj
    ([("id", .str r.id), ("success", .bool r.success)] ++
      (match r.result with
       | none => []
       | some v => [("result", v)]) ++
      (match r.error with
       | none => []
       | some m => [("error", .str m)]))

/-- A JSON number from a count. -/
def natJson (n : Nat) : Json := .num (.finite n)

/-- `MAX_BATCH_SIZE` (batch.rs:87). -/
def MAX_BATCH_SIZE : Nat := 50

/-- `batch::execute` (batch.rs:78-140), parameterised by the executor the
registry lookup provides; the source instantiates it with
`DefaultToolRegistry::execute_tool`, the same path top-level `tools/call`
dispatch uses (protocol/mod.rs:235). -/
def batchExecute (exec : String → Json → Except McpError Json) (args : Json) :
    Except McpError Json :=
  match batchArgsOfJson args with
  | .error m => .error (.invalidParams ("Invalid batch arguments: " ++ m))
  | .ok ops =>
    if ops.isEmpty then .error (.invalidParams "No operations provided")
    else if MAX_BATCH_SIZE < ops.length then
      .error (.invalidParams ("Batch size exceeds maximum of " ++ Nat.repr MAX_BATCH_SIZE ++
        " operations"))
    else
      match firstDupId [] ops with
      | some d => .error (.invalidParams ("Duplicate operation ID: " ++ d))
      | none =>
        let results := ops.map (runOp exec)
        let successful := (results.filter (fun r => r.success)).length
        let failed := results.length - successful
        .ok (.obj
          [("results", .arr (results.map batchResultToJson)),
           ("summary", .obj
             [("total", natJson results.length),
              ("successful", natJson successful),
              ("failed", natJson failed)])])

/-! ### Argument extraction (`src/utils/args.rs`, `src/utils/validation.rs`) -/

/-- `validate_array_size` (validation.rs:14-22). -/
def validateArraySize (size : Nat) (config : Config) : Option McpError :=
  if config.maxArraySize < size then
    some (.resourceLimit ("Array size " ++ Nat.repr size ++
      " exceeds maximum allowed size of " ++ Nat.repr config.maxArraySize))
  else none

/-- `get_number` (args.rs:26-40): a required finite scalar. -/
def getNumber (arguments : Json) (key : String) : Except McpError F64 :=
  match (arguments.index key).asF64 with
  | none => .error (.invalidParams ("Invalid argument: " ++ key ++ " must be a number"))
  | some value =>
    if !value.isFinite then
      .error (.validationError ("Invalid argument: " ++ key ++ " must be a finite number"))
    else .ok value

/-- `get_number_opt` (args.rs:54-56): an optional scalar, filtered to finite. -/
def getNumberOpt (arguments : Json) (key : String) : Option F64 :=
  ((arguments.index key).asF64).filter (fun v => v.isFinite)

/-- Index of the first non-finite entry (the enumerate loop of args.rs:105-112). -/
def firstNonFinite (numbers : List F64) (idx : Nat) : Option Nat :=
  match numbers with
  | [] => none
  | v :: rest => if !v.isFinite then some idx else firstNonFinite rest (idx + 1)

/-- `get_number_array` (args.rs:83-115): a required array, size-limited by the
configuration built in place (args.rs:92), all elements numbers, all finite. -/
def getNumberArray (arguments : Json) (key : String) : Except McpError (List F64) :=
  match (arguments.index key).asArray with
  | none => .error (.invalidParams ("Invalid arguments: " ++ key ++ " must be an array"))
  | some arr =>
    let config := Config.new
    match validateArraySize arr.length config with
    | some e => .error e
    | none =>
      let numbers := arr.filterMap Json.asF64
      if numbers.length ≠ arr.length then
        .error (.invalidParams ("Invalid arguments: " ++ key ++ " must be an array of numbers"))
      else
        match firstNonFinite numbers 0 with
        | some idx =>
          .error (.validationError ("Invalid argument: " ++ key ++ "[" ++ Nat.repr idx ++
            "] must be a finite number"))
        | none => .ok numbers

/-! ### Shared helpers for the claim theorems -/

/-- A registry with no tools: `get_all_tools` is the empty array and every
lookup misses the table (registry.rs:96-98). -/
def trivialRegistry : Registry :=
  ⟨.arr [], fun n _ => .error (.toolError ("Unknown tool: " ++ n))⟩

/-- Splitting `utf8Encode` over string concatenation. -/
theorem utf8Encode_append (a b : String) : utf8Encode (a ++ b) = utf8Encode a ++ utf8Encode b := by
  show (a.data ++ b.data).flatMap _ = _
  simp [utf8Encode]

/-- Every byte list `send_response` emits starts with the header token: the
writer has no framing input and always produces Content-Length framing
(protocol/mod.rs:135). -/
theorem sendResponse_take15 (r : JsonRpcResponse) :
    (sendResponse r).take 15 = asciiBytes "Content-Length:" := by
  unfold sendResponse
  dsimp only
  rw [utf8Encode_append, utf8Encode_append, utf8Encode_append]
  rw [List.append_assoc, List.append_assoc]
  rw [List.take_append_eq_append_take]
  rw [show (utf8Encode "Content-Length: ").length = 16 from rfl]
  norm_num
  rfl

/-! ### C1: framing echo -/

/-- A bare-JSON `tools/list` request with id 1 followed by a newline, the
framing Claude Desktop uses (claude_desktop_integration_test.rs:56-57). -/
def c1Stream : List Nat :=
  123 :: asciiBytes "\"jsonrpc\":\"2.0\",\"method\":\"tools/list\",\"id\":1" ++ [125, 10]

/-- C1: the response to a successfully parsed request is NOT emitted in the
request's framing.  The reader classifies `c1Stream` as bare JSON
(`uses_content_length = false`), but the `send_response` the loop reaches
(protocol/mod.rs:116, the only definition in the crate) takes no framing input
and emits a Content-Length header for every response — `main.rs:61` even calls
it with a second framing argument it does not have.  The claim's contract is
what the integration tests and `main.rs` expect; the writer is the slip. -/
theorem c1_framing_not_echoed :
    (parseMessage c1Stream).1 =
      .ok ⟨⟨"2.0", some (.num (.finite 1)), "tools/list", none⟩, false⟩ ∧
    (∀ registry config, mainStep c1Stream registry config =
      .next [] (sendResponse
        ⟨"2.0", some (.num (.finite 1)), some (.obj [("tools", registry.getAllTools)]), none⟩)) ∧
    ∀ response, (sendResponse response).take 15 = asciiBytes "Content-Length:" :=
  ⟨rfl, fun _ _ => rfl, sendResponse_take15⟩

/-! ### C2: missing or invalid params -/

/-- A bare-JSON `initialize` request with id 7 and no `params` field. -/
def c2Stream : List Nat :=
  123 :: asciiBytes "\"jsonrpc\":\"2.0\",\"method\":\"initialize\",\"id\":7" ++ [125]

/-- A bare-JSON `tools/call` request with id 8 and no `params` field. -/
def c2bStream : List Nat :=
  123 :: asciiBytes "\"jsonrpc\":\"2.0\",\"method\":\"tools/call\",\"id\":8" ++ [125]

/-- C2 counterexample: an `initialize` request without `params` parses
successfully, but the loop does not emit a response with a populated top-level
`error` field and does not continue — `handle_method_with_config` returns
`Err(InvalidParams)` (protocol/mod.rs:205) and the `?` on main.rs:58 propagates
it out of `main`, terminating the process. -/
theorem c2_counterexample :
    (parseMessage c2Stream).1 =
      .ok ⟨⟨"2.0", some (.num (.finite 7)), "initialize", none⟩, false⟩ ∧
    mainStep c2Stream trivialRegistry Config.new =
      .exitErr (.invalidParams "Missing params") :=
  ⟨rfl, rfl⟩

/-- C2 amended: for `initialize` and `tools/call`, a missing `params` makes the
dispatcher return the error value `InvalidParams -32602 "Missing params"` and a
present-but-undeserialisable `params` the error value `ParseError -32700`; no
response carrying a top-level `error` field is built, and `main` propagates the
error, terminating the loop (shown for the concrete `tools/call` stream).
`tools/list` ignores `params` entirely and succeeds. -/
theorem c2_amended (id_ : Option Json) (registry : Registry) (config : Config) :
    handleMethod "initialize" none id_ registry config =
      .error (.invalidParams "Missing params") ∧
    handleMethod "tools/call" none id_ registry config =
      .error (.invalidParams "Missing params") ∧
    handleMethod "initialize" (some (.obj [])) id_ registry config =
      .error (.parseErr "JSON parse error: missing field `protocol_version`") ∧
    handleMethod "tools/call" (some (.obj [])) id_ registry config =
      .error (.parseErr "JSON parse error: missing field `name`") ∧
    (∃ r, handleMethod "tools/list" none id_ registry config = .ok r ∧ r.error = none) ∧
    mainStep c2bStream registry config = .exitErr (.invalidParams "Missing params") :=
  ⟨rfl, rfl, rfl, rfl, ⟨_, rfl, rfl⟩, rfl⟩

/-! ### C3: panic on malformed input -/

/-- Forty-nine `a` bytes, the two-byte UTF-8 encoding of `é` (0xC3 0xA9), and a
newline: a 52-byte stream recognised by neither framing whose first line trims
to 51 bytes with a character straddling byte offset 50. -/
def c3Stream : List Nat := List.replicate 49 97 ++ [195, 169, 10]

/-- C3: malformed input can panic the reader.  On `c3Stream` the unknown-format
branch evaluates `&trimmed[..50]` (parser.rs:172) with byte 50 inside a
two-byte character; Rust's byte-indexed `str` slicing panics on the
non-boundary index, so no classified error value is returned and the loop dies
instead of proceeding, contradicting the claim and the function's own
documentation (parser.rs:35-41). -/
theorem c3_panic_eval :
    (parseMessage c3Stream).1 = .panicked ∧
    ∀ registry config, mainStep c3Stream registry config = .panicked :=
  ⟨rfl, fun _ _ => rfl⟩

/-! ### C4: size ceiling on the bare-JSON path -/

/-- Decoding a replicated ASCII byte run with exactly matching fuel. -/
theorem utf8DecodeGo_rep : ∀ m, utf8DecodeGo m (List.replicate m 120) = some (List.replicate m 120)
  | 0 => rfl
  | m + 1 => by
    rw [List.replicate_succ]
    simp only [utf8DecodeGo]
    rw [if_pos (by norm_num), utf8DecodeGo_rep m]
    rfl

/-- UTF-8 decoding of the oversized bare-JSON stream is the identity. -/
theorem utf8Decode_bigBare (m : Nat) :
    utf8Decode (123 :: 120 :: List.replicate m 120) =
      some (123 :: 120 :: List.replicate m 120) := by
  unfold utf8Decode
  simp only [List.length_cons, List.length_replicate, utf8DecodeGo]
  rw [if_pos (by norm_num), if_pos (by norm_num), utf8DecodeGo_rep m]
  rfl

/-- The parser rejects an `x` where an object key is required, whatever follows
and for any sufficient fuel. -/
theorem jValue_keyBad (f : Nat) (rest : List Nat) :
    jValue (f + 2) 128 (123 :: 120 :: rest) = .error (.syn, "key must be a string") := by
  simp only [jValue, jMembers, skipWs]
  norm_num [List.dropWhile, jsonWs, Except.map]

/-- The oversized bare-JSON stream has no surrounding whitespace to trim. -/
theorem trim_bigBare (m : Nat) :
    rustTrim (123 :: 120 :: List.replicate m 120) = 123 :: 120 :: List.replicate m 120 := by
  unfold rustTrim
  have h1 : List.dropWhile rustWs (123 :: 120 :: List.replicate m 120) =
      123 :: 120 :: List.replicate m 120 := by
    norm_num [List.dropWhile, rustWs]
  rw [h1]
  have h2 : (123 :: 120 :: List.replicate m 120).reverse =
      List.replicate m 120 ++ [120, 123] := by
    simp [List.reverse_cons]
  rw [h2]
  have h3 : List.dropWhile rustWs (List.replicate m 120 ++ [120, 123]) =
      List.replicate m 120 ++ [120, 123] := by
    cases m with
    | zero => norm_num [List.dropWhile, rustWs]
    | succ k => norm_num [List.replicate_succ, List.dropWhile, rustWs]
  rw [h3, ← h2]
  simp

/-- Deserialising the oversized bare-JSON stream fails with a syntax error. -/
theorem requestFromCps_bigBare (m : Nat) :
    requestFromCps (123 :: 120 :: List.replicate m 120) =
      .error (.syn, "key must be a string") := by
  unfold requestFromCps jDoc
  simp only [List.length_cons, List.length_replicate]
  rw [show 2 * (m + 1 + 1) + 2 = 2 * m + 4 + 2 by ring]
  rw [jValue_keyBad]

/-- `parse_message` on the oversized bare-JSON stream: everything is consumed
and the failure is a -32700 parse error, with no size check anywhere on the
path (parser.rs:100-162 compares nothing against `MAX_CONTENT_LENGTH`). -/
theorem parseMessage_bigBare (m : Nat) :
    parseMessage (123 :: 120 :: List.replicate m 120) =
      (.err (.parseErr "JSON parse error: key must be a string"), []) := by
  unfold parseMessage
  rw [show (123 :: 120 :: List.replicate m 120).isEmpty = false from rfl]
  rw [show listStartsWith (123 :: 120 :: List.replicate m 120) contentLengthToken = false from rfl]
  simp only [Bool.false_eq_true, if_false, List.head?_cons, requestFromBytes,
    utf8Decode_bigBare, requestFromCps_bigBare, trim_bigBare]
  norm_num
  rfl

/-- A 10,000,002-byte bare-JSON stream: `{`, then 10,000,001 `x` bytes. -/
def oversizedBare : List Nat := 123 :: 120 :: List.replicate 10000000 120

/-- An oversized declared length on the Content-Length path. -/
def ovHeader : List Nat := asciiBytes "Content-Length: 10000001\r\n\r\nx"

/-- C4 counterexample: a bare-JSON input exceeding the 10,000,000-byte ceiling
is fully accumulated and classified as a -32700 parse error; reading does not
fail with a resource-limit error, so the BareJson path enforces no ceiling. -/
theorem c4_counterexample :
    MAX_CONTENT_LENGTH < oversizedBare.length ∧
    oversizedBare.head? = some 123 ∧
    (parseMessage oversizedBare).1 = .err (.parseErr "JSON parse error: key must be a string") ∧
    ∀ m, (parseMessage oversizedBare).1 ≠ .err (.resourceLimit m) := by
  have hlen : MAX_CONTENT_LENGTH < oversizedBare.length := by
    rw [show oversizedBare.length = 10000002 from by
      rw [show oversizedBare = 123 :: 120 :: List.replicate 10000000 120 from rfl]
      rw [List.length_cons, List.length_cons, List.length_replicate]]
    norm_num [MAX_CONTENT_LENGTH]
  refine ⟨hlen, rfl, ?_, ?_⟩
  · rw [show (parseMessage oversizedBare).1 =
      (parseMessage (123 :: 120 :: List.replicate 10000000 120)).1 from rfl]
    rw [parseMessage_bigBare]
  · intro m hm
    rw [show (parseMessage oversizedBare).1 =
      (parseMessage (123 :: 120 :: List.replicate 10000000 120)).1 from rfl] at hm
    rw [parseMessage_bigBare] at hm
    simp only [ParseOut.err.injEq] at hm
    have := congrArg McpError.code hm
    simp [McpError.parseErr, McpError.resourceLimit, McpError.new] at this

/-- C4 amended: only the LengthPrefixed path enforces the 10,000,000-byte
ceiling (an oversized declared length is rejected with a resource-limit error
before the body is read); the BareJson path performs no size check at all: it
accumulates the whole oversized message (nothing remains unconsumed) and
reports an ordinary parse failure. -/
theorem c4_amended :
    (parseMessage ovHeader).1 =
      .err (.resourceLimit
        "Content-Length 10000001 exceeds maximum allowed size of 10000000 bytes") ∧
    parseMessage oversizedBare =
      (.err (.parseErr "JSON parse error: key must be a string"), []) ∧
    MAX_CONTENT_LENGTH < oversizedBare.length := by
  have hlen : MAX_CONTENT_LENGTH < oversizedBare.length := by
    rw [show oversizedBare.length = 10000002 from by
      rw [show oversizedBare = 123 :: 120 :: List.replicate 10000000 120 from rfl]
      rw [List.length_cons, List.length_cons, List.length_replicate]]
    norm_num [MAX_CONTENT_LENGTH]
  refine ⟨rfl, ?_, hlen⟩
  rw [show parseMessage oversizedBare =
    parseMessage (123 :: 120 :: List.replicate 10000000 120) from rfl]
  rw [parseMessage_bigBare]

/-! ### C5: domain failures live inside `result` -/

/-- C5: a registry-table miss yields the tool error `Unknown tool: <name>`
(registry.rs:98); every `tools/call` whose executor fails produces an `.ok`
response whose `result` is the `content`/`isError: true` object with the
top-level `error` field absent (protocol/mod.rs:261-275); an unrecognised
method produces the same shape with text `Method not found: <method>`
(protocol/mod.rs:282-295). -/
theorem c5_domain_failures_in_result :
    (∀ (table : List (String × ToolExecutor)) (name : String) (args : Json),
      tableLookup table name = none →
      defaultExecuteTool table name args = .error (.toolError ("Unknown tool: " ++ name))) ∧
    (∀ (registry : Registry) (config : Config) (id_ : Option Json) (nm : String)
      (args : Json) (e : McpError),
      registry.executeTool nm args = .error e →
      handleMethod "tools/call" (some (.obj [("name", .str nm), ("arguments", args)]))
          id_ registry config =
        .ok ⟨"2.0", id_,
          some (.obj
            [("content", .arr
              [.obj [("type", .str "text"), ("text", .str ("Error: " ++ e.message))]]),
             ("isError", .bool true)]),
          none⟩) ∧
    (∀ (registry : Registry) (config : Config) (id_ : Option Json) (params : Option Json)
      (method : String),
      method ≠ "initialize" → method ≠ "tools/list" → method ≠ "tools/call" →
      handleMethod method params id_ registry config =
        .ok ⟨"2.0", id_,
          some (.obj
            [("content", .arr
              [.obj [("type", .str "text"), ("text", .str ("Method not found: " ++ method))]]),
             ("isError", .bool true)]),
          none⟩) := by
  refine ⟨?_, ?_, ?_⟩
  · intro table name args hmiss
    unfold defaultExecuteTool
    rw [hmiss]
  · intro registry config id_ nm args e hexec
    unfold handleMethod
    rw [if_neg (by decide), if_neg (by decide), if_pos rfl]
    dsimp only
    rw [show toolCallParamsOfJson (.obj [("name", .str nm), ("arguments", args)]) =
      .ok ⟨nm, args⟩ from by simp [toolCallParamsOfJson, jsonLookup, Json.asStr]]
    dsimp only
    rw [hexec]
  · intro registry config id_ params method h1 h2 h3
    unfold handleMethod
    rw [if_neg h1, if_neg h2, if_neg h3]

/-- C5 witness: the three parts at concrete inputs — an empty table, the
trivial registry's failing executor, and the unrecognised method name
`frobnicate`. -/
theorem c5_witness :
    defaultExecuteTool [] "nope" (.obj []) = .error (.toolError "Unknown tool: nope") ∧
    handleMethod "tools/call" (some (.obj [("name", .str "nope"), ("arguments", .obj [])]))
        (some (.num (.finite 3))) trivialRegistry Config.new =
      .ok ⟨"2.0", some (.num (.finite 3)),
        some (.obj
          [("content", .arr
            [.obj [("type", .str "text"), ("text", .str "Error: Unknown tool: nope")]]),
           ("isError", .bool true)]),
        none⟩ ∧
    handleMethod "frobnicate" none (some (.num (.finite 4))) trivialRegistry Config.new =
      .ok ⟨"2.0", some (.num (.finite 4)),
        some (.obj
          [("content", .arr
            [.obj [("type", .str "text"), ("text", .str "Method not found: frobnicate")]]),
           ("isError", .bool true)]),
        none⟩ :=
  ⟨c5_domain_failures_in_result.1 [] "nope" (.obj []) rfl,
   c5_domain_failures_in_result.2.1 trivialRegistry Config.new (some (.num (.finite 3)))
     "nope" (.obj []) (.toolError "Unknown tool: nope") rfl,
   c5_domain_failures_in_result.2.2 trivialRegistry Config.new (some (.num (.finite 4)))
     none "frobnicate" (by decide) (by decide) (by decide)⟩

/-! ### C6: batch execution -/

/-- C6: on a valid batch (parsed operations, non-empty, within the size cap, no
duplicate ids), `batch::execute` runs every operation independently through the
supplied executor — the same registry path top-level calls use — and returns
one result per operation in order, each tagged with its operation's id,
summarised by `total = |ops|`, `successful` counting exactly the executors
that returned `Ok`, and `failed = total - successful`, so
`successful + failed = total` (batch.rs:106-139). -/
theorem c6_batch_execution (exec : String → Json → Except McpError Json) (args : Json)
    (ops : List BatchOp)
    (hparse : batchArgsOfJson args = .ok ops)
    (hne : ops ≠ [])
    (hlen : ops.length ≤ MAX_BATCH_SIZE)
    (hdup : firstDupId [] ops = none) :
    batchExecute exec args = .ok (.obj
      [("results", .arr ((ops.map (runOp exec)).map batchResultToJson)),
       ("summary", .obj
         [("total", natJson ops.length),
          ("successful", natJson ((ops.map (runOp exec)).filter (fun r => r.success)).length),
          ("failed", natJson (ops.length -
            ((ops.map (runOp exec)).filter (fun r => r.success)).length))])]) ∧
    (∀ op, (runOp exec op).id = op.id) ∧
    (∀ op, (runOp exec op).success = true ↔ ∃ v, exec op.tool op.arguments = .ok v) ∧
    ((ops.map (runOp exec)).filter (fun r => r.success)).length +
      (ops.length - ((ops.map (runOp exec)).filter (fun r => r.success)).length) =
      ops.length := by
  refine ⟨?_, ?_, ?_, ?_⟩
  · unfold batchExecute
    rw [hparse]
    dsimp only
    rw [if_neg (by simp [List.isEmpty_iff, hne])]
    rw [if_neg (by omega)]
    rw [hdup]
    rw [List.length_map]
  · intro op
    unfold runOp
    cases exec op.tool op.arguments <;> rfl
  · intro op
    unfold runOp
    cases h : exec op.tool op.arguments <;> simp [h]
  · have hle : ((ops.map (runOp exec)).filter (fun r => r.success)).length ≤
        (ops.map (runOp exec)).length := List.length_filter_le _ _
    rw [List.length_map] at hle
    omega

/-- A two-argument executor succeeding except on the tool name `boom`
(mirroring a divide-by-zero validation failure). -/
def demoExec : String → Json → Except McpError Json :=
  fun t _ =>
    if t = "boom" then .error (.validationError "Division by zero") else .ok (.num (.finite 3))

/-- The `[good, divide-by-zero, good]` batch arguments of the spec's example. -/
def demoBatchArgs : Json := .obj [("operations", .arr
  [.obj [("id", .str "g1"), ("tool", .str "add"), ("arguments", .obj [])],
   .obj [("id", .str "b1"), ("tool", .str "boom"), ("arguments", .obj [])],
   .obj [("id", .str "g2"), ("tool", .str "add"), ("arguments", .obj [])]])]

/-- The parsed operations of `demoBatchArgs`. -/
def demoOps : List BatchOp :=
  [⟨"g1", "add", .obj []⟩, ⟨"b1", "boom", .obj []⟩, ⟨"g2", "add", .obj []⟩]

/-- C6 witness: the `[good, divide-by-zero, good]` batch at the concrete
executor, with every hypothesis discharged by computation. -/
theorem c6_batch_execution_witness :
    batchExecute demoExec demoBatchArgs = .ok (.obj
      [("results", .arr ((demoOps.map (runOp demoExec)).map batchResultToJson)),
       ("summary", .obj
         [("total", natJson demoOps.length),
          ("successful", natJson ((demoOps.map (runOp demoExec)).filter (fun r => r.success)).length),
          ("failed", natJson (demoOps.length -
            ((demoOps.map (runOp demoExec)).filter (fun r => r.success)).length))])]) ∧
    (∀ op, (runOp demoExec op).id = op.id) ∧
    (∀ op, (runOp demoExec op).success = true ↔ ∃ v, demoExec op.tool op.arguments = .ok v) ∧
    ((demoOps.map (runOp demoExec)).filter (fun r => r.success)).length +
      (demoOps.length - ((demoOps.map (runOp demoExec)).filter (fun r => r.success)).length) =
      demoOps.length :=
  c6_batch_execution demoExec demoBatchArgs demoOps rfl
    (fun h => List.noConfusion h) (by decide) rfl

/-! ### C7: all-or-nothing batch validation -/

/-- C7: an empty operations array, more than `MAX_BATCH_SIZE` operations, or a
duplicate operation id rejects the whole batch with an `InvalidParams` error
(batch.rs:82-104), and the outcome is identical for every executor — the
validation happens before any sub-operation could run. -/
theorem c7_batch_validation (exec exec2 : String → Json → Except McpError Json)
    (args : Json) (ops : List BatchOp)
    (hparse : batchArgsOfJson args = .ok ops)
    (hbad : ops = [] ∨ MAX_BATCH_SIZE < ops.length ∨ firstDupId [] ops ≠ none) :
    (∃ m, batchExecute exec args = .error (.invalidParams m)) ∧
    batchExecute exec args = batchExecute exec2 args := by
  unfold batchExecute
  rw [hparse]
  dsimp only
  by_cases hemp : ops.isEmpty
  · rw [if_pos hemp, if_pos hemp]
    exact ⟨⟨"No operations provided", rfl⟩, rfl⟩
  · rw [if_neg hemp, if_neg hemp]
    by_cases hbig : MAX_BATCH_SIZE < ops.length
    · rw [if_pos hbig, if_pos hbig]
      exact ⟨⟨_, rfl⟩, rfl⟩
    · rw [if_neg hbig, if_neg hbig]
      have hdup : firstDupId [] ops ≠ none := by
        rcases hbad with h | h | h
        · exact absurd (by simp [h, List.isEmpty_iff]) hemp
        · exact absurd h hbig
        · exact h
      obtain ⟨d, hd⟩ := Option.ne_none_iff_exists'.mp hdup
      rw [hd]
      exact ⟨⟨_, rfl⟩, rfl⟩

/-- Batch arguments with two operations sharing the id `dup`. -/
def dupBatchArgs : Json := .obj [("operations", .arr
  [.obj [("id", .str "dup"), ("tool", .str "add"), ("arguments", .obj [])],
   .obj [("id", .str "dup"), ("tool", .str "mul"), ("arguments", .obj [])]])]

/-- The parsed operations of `dupBatchArgs`. -/
def dupOps : List BatchOp := [⟨"dup", "add", .obj []⟩, ⟨"dup", "mul", .obj []⟩]

/-- C7 witness: the duplicate-id batch is rejected for the concrete executor,
and two different executors cannot tell — neither ran anything. -/
theorem c7_batch_validation_witness :
    (∃ m, batchExecute demoExec dupBatchArgs = .error (.invalidParams m)) ∧
    batchExecute demoExec dupBatchArgs =
      batchExecute (fun _ _ => .ok .null) dupBatchArgs :=
  c7_batch_validation demoExec (fun _ _ => .ok .null) dupBatchArgs dupOps rfl
    (Or.inr (Or.inr (fun h => Option.noConfusion h)))

/-! ### C8: response shape and id echo -/

/-- C8: every response the dispatcher returns for a successfully parsed request
carries a present `result`, an absent top-level `error`, and the originating
request's `id` value unchanged (every branch of protocol/mod.rs:192-298 builds
`result: Some(..), error: None, id: id.clone()`). -/
theorem c8_response_invariant (method : String) (params : Option Json) (id_ : Option Json)
    (registry : Registry) (config : Config) (resp : JsonRpcResponse)
    (h : handleMethod method params id_ registry config = .ok resp) :
    resp.result.isSome = true ∧ resp.error = none ∧ resp.id = id_ := by
  unfold handleMethod at h
  repeat' split at h
  all_goals cases h
  all_goals exact ⟨rfl, rfl, rfl⟩

/-- C8 witness: the invariant at the concrete `tools/list` response. -/
theorem c8_response_invariant_witness :
    (JsonRpcResponse.mk "2.0" (some (.num (.finite 1)))
      (some (.obj [("tools", Json.arr [])])) none).result.isSome = true ∧
    (JsonRpcResponse.mk "2.0" (some (.num (.finite 1)))
      (some (.obj [("tools", Json.arr [])])) none).error = none ∧
    (JsonRpcResponse.mk "2.0" (some (.num (.finite 1)))
      (some (.obj [("tools", Json.arr [])])) none).id = some (.num (.finite 1)) :=
  c8_response_invariant "tools/list" none (some (.num (.finite 1)))
    trivialRegistry Config.new _ rfl

/-! ### C9: terminal states of the loop -/

/-- `JsonRpcRequest::validate` only ever fails with code -32600. -/
theorem validateReq_code (req : JsonRpcRequest) (e : McpError)
    (h : validateReq req = some e) : e.code = -32600 := by
  unfold validateReq at h
  split at h
  · exact absurd h (by simp)
  · cases h
    rfl

/-- On a non-empty stream, no error `parse_message` returns carries code
-32001: the EOF sentinel (parser.rs:50) is produced only for the empty stream,
every other failure uses -32603, -32600, -32002 or -32700. -/
theorem parseMessage_err_code (b : Nat) (t : List Nat) (e : McpError)
    (h : (parseMessage (b :: t)).1 = .err e) : e.code ≠ -32001 := by
  unfold parseMessage at h
  rw [show (b :: t).isEmpty = false from rfl] at h
  simp only [Bool.false_eq_true, if_false] at h
  repeat' split at h
  all_goals try (cases h)
  all_goals try (simp [McpError.internalError, McpError.invalidRequest, McpError.resourceLimit,
    McpError.parseErr, McpError.validationError, McpError.new])
  all_goals (have hv := validateReq_code _ _ (by assumption); omega)

/-- A bare-JSON `tools/call` request with id 2 and no `params` field. -/
def c9Stream : List Nat :=
  123 :: asciiBytes "\"jsonrpc\":\"2.0\",\"method\":\"tools/call\",\"id\":2" ++ [125]

/-- C9 counterexample: clean shutdown is NOT the sole terminal state of the
loop — the non-empty stream `c9Stream` (a parsed `tools/call` without
`params`) terminates the loop through the dispatcher error the `?` on
main.rs:58 propagates, a terminal state distinct from the clean shutdown. -/
theorem c9_counterexample :
    c9Stream ≠ [] ∧
    (∀ registry config, mainStep c9Stream registry config =
      .exitErr (.invalidParams "Missing params")) ∧
    StepResult.exitErr (.invalidParams "Missing params") ≠ StepResult.shutdown :=
  ⟨fun h => List.noConfusion h, fun _ _ => rfl, fun h => StepResult.noConfusion h⟩

/-- C9 amended: zero bytes at loop start shut the loop down cleanly — nothing
is read, no response is written (main.rs:68-71) — and the EOF sentinel arises
only there: every parse failure of a non-empty stream continues the loop with
a best-effort response.  Clean shutdown is, however, only the sole NON-ERROR
terminal state: dispatcher errors also terminate the loop (the
counterexample). -/
theorem c9_amended (registry : Registry) (config : Config) :
    mainStep [] registry config = .shutdown ∧
    (∀ b t e, (parseMessage (b :: t)).1 = .err e →
      ∃ out, mainStep (b :: t) registry config = .next (parseMessage (b :: t)).2 out) ∧
    parseMessage [] = (.err (McpError.new (-32001) "EOF: clean shutdown"), []) := by
  refine ⟨rfl, ?_, rfl⟩
  intro b t e h
  have hcode := parseMessage_err_code b t e h
  unfold mainStep
  rcases hpm : parseMessage (b :: t) with ⟨po, rest⟩
  rw [hpm] at h
  simp only at h
  subst h
  dsimp only
  rw [if_neg (by simp [hcode])]
  exact ⟨_, rfl⟩

/-- C9 witness: the amended theorem at the empty stream and at the concrete
malformed two-byte stream `",\n"`, whose parse failure continues the loop. -/
theorem c9_amended_witness :
    mainStep [] trivialRegistry Config.new = .shutdown ∧
    (∃ out, mainStep [44, 10] trivialRegistry Config.new =
      .next (parseMessage [44, 10]).2 out) :=
  ⟨(c9_amended trivialRegistry Config.new).1,
   (c9_amended trivialRegistry Config.new).2.1 44 [10]
     (.invalidRequest "Unknown message format, expected Content-Length header or JSON, got: ,")
     rfl⟩

/-! ### C10: only finite numbers reach the tools -/

/-- If the enumerate scan found no non-finite entry, every entry is finite. -/
theorem firstNonFinite_none :
    ∀ (l : List F64) (i : Nat), firstNonFinite l i = none → ∀ v ∈ l, v.isFinite = true
  | [], _, _, v, hv => absurd hv (List.not_mem_nil v)
  | x :: l, i, h, v, hv => by
    unfold firstNonFinite at h
    split at h
    · exact Option.noConfusion h
    · rcases List.mem_cons.mp hv with rfl | hv2
      · rename_i hfin
        simpa using hfin
      · exact firstNonFinite_none l (i + 1) h v hv2

/-- C10: the argument extractors only ever hand finite values to a tool: an
`Ok` from `get_number` is finite (args.rs:31-39), every element of an `Ok`
from `get_number_array` is finite (args.rs:104-114), and `get_number_opt`
filters to finite (args.rs:55); a NaN, infinite or non-numeric required value
is rejected with an error before any tool computation runs. -/
theorem c10_finite_arguments (args : Json) (key : String) :
    (∀ v, getNumber args key = .ok v → v.isFinite = true) ∧
    (∀ ns, getNumberArray args key = .ok ns → ∀ v ∈ ns, v.isFinite = true) ∧
    (∀ v, getNumberOpt args key = some v → v.isFinite = true) := by
  refine ⟨?_, ?_, ?_⟩
  · intro v h
    unfold getNumber at h
    split at h
    · exact Except.noConfusion h
    · split at h
      · exact Except.noConfusion h
      · cases h
        rename_i hfin
        simpa using hfin
  · intro ns h
    unfold getNumberArray at h
    split at h
    · exact Except.noConfusion h
    · dsimp only at h
      split at h
      · exact Except.noConfusion h
      · split at h
        · exact Except.noConfusion h
        · split at h
          · exact Except.noConfusion h
          · cases h
            rename_i hnone
            exact firstNonFinite_none _ 0 hnone
  · intro v h
    unfold getNumberOpt at h
    rcases hF : (args.index key).asF64 with _ | w
    · rw [hF] at h
      exact Option.noConfusion h
    · rw [hF] at h
      simp only [Option.filter] at h
      split at h
      · cases h
        assumption
      · exact Option.noConfusion h

/-- C10 witness: the three extractors at concrete finite inputs. -/
theorem c10_finite_arguments_witness :
    (F64.finite 42).isFinite = true ∧
    (∀ v ∈ [F64.finite 1], v.isFinite = true) ∧
    (F64.finite 2).isFinite = true :=
  ⟨(c10_finite_arguments (.obj [("a", .num (.finite 42))]) "a").1 _ rfl,
   (c10_finite_arguments (.obj [("ns", .arr [.num (.finite 1)])]) "ns").2.1 _ rfl,
   (c10_finite_arguments (.obj [("b", .num (.finite 2))]) "b").2.2 _ rfl⟩
